import Mathlib

/-!
Verification of the `advanced-vector` repository (src/advanced-vector/vector.h):
a growable contiguous container `Vector<T>` built on a raw-memory owner
`RawMemory<T>`.

Two shallow embeddings are used, at the two levels of abstraction the code
itself works at:

* `AdvVec.Vec α` — the value-level view of a vector: the list of live element
  values (the constructed prefix `[0, size_)` of the buffer) together with the
  buffer capacity.  Success paths of the operations are modelled here.

* `AdvVec.VecState α` — the slot-level view used for the exception paths: the
  buffer is a list of `Option α` slots (`some a` = a constructed element with
  value `a`, `none` = uninitialized storage), together with `size_`.  Element
  constructions, copies and destructor calls are modelled one slot at a time,
  and every `destroy` on a slot that holds no constructed element is counted
  (such a call is undefined behaviour in the C++ source).  Failure of a copy
  constructor / element constructor / assignment is injected through explicit
  oracle parameters, and each operation returns `Except` — `Except.error`
  models the operation exiting by a propagated exception, carrying the vector
  state the caller observes afterwards.

* `AdvVec.Reach s c` — the set of (size_, capacity) pairs reachable by any
  sequence of operations, with one constructor per operation outcome traced
  from the code, exceptional exits included.
-/

namespace AdvVec

/-! ## Slot-level primitives (RawMemory + placement construction) -/

/-- A freshly allocated `RawMemory<T>` buffer of capacity `n`
(vector.h line 71-73): `n` slots of raw, uninitialized storage. -/
def newBuffer (α : Type) (n : Nat) : List (Option α) :=
  List.replicate n none

/-- The construction state of buffer slot `i`: `some a` when a constructor has
completed there and the element's value is `a`, `none` otherwise. -/
def slotVal (buf : List (Option α)) (i : Nat) : Option α :=
  (buf.get? i).getD none

/-- Placement-new of a fresh value `a` into slot `i` (`new (p + i) T(...)`). -/
def constructAt (buf : List (Option α)) (i : Nat) (a : α) : List (Option α) :=
  buf.set i (some a)

/-- Models `std::destroy_n(buf + start, n)`: runs the destructor on slots
`[start, start + n)`.  The second component counts destructor calls made on a
slot holding no constructed element (double destruction or destruction of raw
storage — undefined behaviour in the source). -/
def destroyN (buf : List (Option α)) (start n : Nat) : List (Option α) × Nat :=
  match n with
  | 0 => (buf, 0)
  | m + 1 =>
    let bad : Nat := match slotVal buf start with
      | some _ => 0
      | none => 1
    let rest := destroyN (buf.set start none) (start + 1) m
    (rest.1, bad + rest.2)

/-- Copy-constructs `n` elements from `src` slots `[srcStart, srcStart + n)`
into `dst` slots `[dstStart, dstStart + n)`, in order (the loop inside
`std::uninitialized_copy_n` when no copy throws). -/
def copyRange (src : List (Option α)) (srcStart : Nat) (dst : List (Option α))
    (dstStart n : Nat) : List (Option α) :=
  match n with
  | 0 => dst
  | m + 1 =>
    copyRange src (srcStart + 1) (dst.set dstStart (slotVal src srcStart)) (dstStart + 1) m

/-- Models `std::uninitialized_copy_n(src + srcStart, n, dst + dstStart)` for an
element type whose copy constructor may throw.  `failAt = some k` with `k < n`
means the copy constructor of the `k`-th element throws; per the standard, the
algorithm then destroys the `k` objects it had already constructed before
letting the exception escape, so the destination is restored exactly to the
state it was passed in (those slots were uninitialized before the call and are
uninitialized again).  `Except.error` returns that restored destination. -/
def uninitCopyN (src : List (Option α)) (srcStart n : Nat) (dst : List (Option α))
    (dstStart : Nat) (failAt : Option Nat) :
    Except (List (Option α)) (List (Option α)) :=
  match failAt with
  | none => .ok (copyRange src srcStart dst dstStart n)
  | some k =>
    if k < n then .error dst
    else .ok (copyRange src srcStart dst dstStart n)

/-- The slot-level state of a `Vector<T>`: the buffer owned through `data_`
(its length is `Capacity()`) and the live count `size_`. -/
structure VecState (α : Type) where
  buf : List (Option α)
  size : Nat
deriving DecidableEq

/-- `Capacity()` of a slot-level state. -/
def VecState.cap (v : VecState α) : Nat := v.buf.length

/-- The live element values, in order: the values of slots `[0, size_)`. -/
def VecState.elems (v : VecState α) : List α :=
  (v.buf.take v.size).filterMap id

/-- The new capacity chosen by the growth paths of `EmplaceBack` (line 224) and
`Emplace` (line 278): `size_ == 0 ? 1 : Capacity() * 2`. -/
def grownCapacity (size cap : Nat) : Nat :=
  if size = 0 then 1 else cap * 2

/-! ## Exception-path models of the growth operations (copy branch)

These model the `std::uninitialized_copy_n` branch of the
`if constexpr (is_nothrow_move_constructible_v<T> || !is_copy_constructible_v<T>)`
dispatch — the branch taken precisely when the element type's copy constructor
may be invoked (and may throw), which is the situation the strong-safety
guarantee is about.  Each returns the pair (vector state observed afterwards,
count of invalid destructor calls performed); `Except.error` means the call
exits by a propagated exception. -/

/-- `Vector::Reserve(new_capacity)` (vector.h lines 184-196), copy branch.
No try/catch is present: if the `k`-th copy throws, `uninitialized_copy_n`
rolls back its own constructions, the exception propagates, `new_data` is
deallocated by its destructor, and `data_`/`size_` were never modified. -/
def reserveCopying (v : VecState α) (newCapacity : Nat) (failAt : Option Nat) :
    Except (VecState α × Nat) (VecState α × Nat) :=
  if newCapacity ≤ v.cap then
    .ok (v, 0)
  else
    let nd0 := newBuffer α newCapacity
    match uninitCopyN v.buf 0 v.size nd0 0 failAt with
    | .ok nd1 =>
      -- std::destroy_n(data_.GetAddress(), size_); data_.Swap(new_data);
      .ok (⟨nd1, v.size⟩, (destroyN v.buf 0 v.size).2)
    | .error _ =>
      .error (⟨v.buf, v.size⟩, 0)

/-- The growth path of `Vector::EmplaceBack` (vector.h lines 223-240), copy
branch.  The new element is constructed at `new_data + size_` first; then the
old elements are copied; on a throw the catch block runs
`std::destroy_n(new_data.GetAddress(), size_)` and rethrows, leaving `data_`
and `size_` untouched. -/
def emplaceBackGrowCopying (v : VecState α) (a : α) (failAt : Option Nat) :
    Except (VecState α × Nat) (VecState α × Nat) :=
  let nd0 := newBuffer α (grownCapacity v.size v.cap)
  let nd1 := constructAt nd0 v.size a
  match uninitCopyN v.buf 0 v.size nd1 0 failAt with
  | .ok nd2 =>
    -- std::destroy_n(data_.GetAddress(), size_); data_.Swap(new_data); ++size_;
    .ok (⟨nd2, v.size + 1⟩, (destroyN v.buf 0 v.size).2)
  | .error ndF =>
    -- catch block: std::destroy_n(new_data.GetAddress(), size_); throw;
    .error (⟨v.buf, v.size⟩, (destroyN ndF 0 v.size).2)

/-- The two consecutive `std::uninitialized_copy_n` calls of the `Emplace`
growth path (vector.h lines 294-295): `count` elements to `dst[0, count)`, then
`size - count` elements to `dst[count + 1, size + 1)`.  A single oracle index
`failAt = some k` makes the `k`-th element copy overall throw. -/
def uninitCopyN2 (src : List (Option α)) (count size : Nat) (dst : List (Option α))
    (failAt : Option Nat) : Except (List (Option α)) (List (Option α)) :=
  match uninitCopyN src 0 count dst 0 failAt with
  | .error d => .error d
  | .ok d1 =>
    uninitCopyN src count (size - count) d1 (count + 1) (failAt.map (· - count))

/-- The growth path of `Vector::Emplace` (vector.h lines 277-306), copy branch,
inserting at index `count`.  `ctorFail = true` means the construction of the
new element (`new (new_data + count) T(...)`, line 280) throws: the catch block
then runs `std::destroy_n(new_data.GetAddress() + count, 1)` — on a slot in
which no constructor has completed — and rethrows.  Otherwise the element is
constructed and the old elements are copied around it, a failed copy being
caught by `std::destroy_n(new_data.GetAddress(), size_); throw;`. -/
def emplaceGrowCopying (v : VecState α) (count : Nat) (a : α) (ctorFail : Bool)
    (failAt : Option Nat) : Except (VecState α × Nat) (VecState α × Nat) :=
  let nd0 := newBuffer α (grownCapacity v.size v.cap)
  if ctorFail then
    .error (⟨v.buf, v.size⟩, (destroyN nd0 count 1).2)
  else
    let nd1 := constructAt nd0 count a
    match uninitCopyN2 v.buf count v.size nd1 failAt with
    | .ok nd2 =>
      -- std::destroy_n(data_.GetAddress(), size_); data_.Swap(new_data); ++size_;
      .ok (⟨nd2, v.size + 1⟩, (destroyN v.buf 0 v.size).2)
    | .error ndF =>
      .error (⟨v.buf, v.size⟩, (destroyN ndF 0 v.size).2)

/-- The vector state the caller observes when an operation exits by exception
(`none` when the operation returned normally). -/
def exnState (r : Except (VecState α × Nat) (VecState α × Nat)) : Option (VecState α) :=
  match r with
  | .error (s, _) => some s
  | .ok _ => none

/-- The count of invalid destructor calls an operation performed, whether it
returned normally or exited by exception. -/
def badDestroys (r : Except (VecState α × Nat) (VecState α × Nat)) : Nat :=
  match r with
  | .error (_, b) => b
  | .ok (_, b) => b

/-- `std::move_backward(begin + count, begin + count + n, begin + count + n + 1)`
as performed at line 263: assigns `slot (count+j+1) := slot (count+j)` for
`j = n-1` down to `0` (right to left, so values shift one slot right). -/
def shiftRightOne (buf : List (Option α)) (count n : Nat) : List (Option α) :=
  match n with
  | 0 => buf
  | m + 1 => shiftRightOne (buf.set (count + m + 1) (slotVal buf (count + m))) count m

/-- The interior spare-capacity path of `Vector::Emplace` (vector.h lines
258-275), inserting value `a` at index `count < size_` with `size_ < Capacity()`.
Steps traced from the code: build `temp`; move-construct the last element into
slot `size_`; `move_backward` the range `[count, size_ - 1)` one slot right;
then `data_[count] = std::move(temp)`.  `assignFail = true` means that last
move-assignment throws: the catch block destroys slot `count` and does NOT
rethrow, so control falls through to `++size_` and the function returns
normally. -/
def emplaceSpareInterior (v : VecState α) (count : Nat) (a : α) (assignFail : Bool) :
    Except (VecState α × Nat) (VecState α × Nat) :=
  let b1 := v.buf.set v.size (slotVal v.buf (v.size - 1))
  let b2 := shiftRightOne b1 count (v.size - 1 - count)
  if assignFail then
    let d := destroyN b2 count 1
    .ok (⟨d.1, v.size + 1⟩, d.2)
  else
    .ok (⟨b2.set count (some a), v.size + 1⟩, 0)

/-! ## Value-level model (success paths) -/

/-- The value-level view of a `Vector<T>`: the list of live element values
(slots `[0, size_)` of the buffer) and the capacity `data_.Capacity()`. -/
structure Vec (α : Type) where
  data : List α
  cap : Nat
deriving DecidableEq

/-- `Vector::Size()` — the live count `size_`. -/
def Vec.size (v : Vec α) : Nat := v.data.length

/-- The default constructor `Vector() = default` (line 88): null buffer,
capacity 0, size 0. -/
def Vec.empty (α : Type) : Vec α := ⟨[], 0⟩

/-- Exchange of two vectors' buffers and sizes, as done by `Vector::Swap`
(lines 322-325): `data_.Swap(other.data_); std::swap(size_, other.size_)`. -/
def vecSwap (a b : Vec α) : Vec α × Vec α := (b, a)

/-- The move constructor `Vector(Vector&&)` (lines 102-105): the new object is
default-initialized (empty buffer, size 0) and then `Swap(other)` runs.  The
first component is the new object's state, the second the source's state
afterwards. -/
def moveCtor (other : Vec α) : Vec α × Vec α :=
  vecSwap (Vec.empty α) other

/-- The move assignment `operator=(Vector&&)` (lines 168-173) between two
distinct objects (`this != &other`): `Swap(other)` runs.  The first component
is the target's state afterwards, the second the source's. -/
def moveAssign (dst src : Vec α) : Vec α × Vec α :=
  vecSwap dst src

/-- `Vector::Reserve(new_capacity)` success path (lines 184-196): no-op when
`new_capacity <= Capacity()`, otherwise the live values are transferred to a
new buffer of exactly `new_capacity` slots. -/
def Vec.reserve (v : Vec α) (n : Nat) : Vec α :=
  if n ≤ v.cap then v else ⟨v.data, n⟩

/-- `Vector::Resize(new_size)` success path (lines 198-207): when shrinking,
`destroy_n` removes the trailing `size_ - new_size` elements; otherwise
`Reserve(new_size)` runs and `uninitialized_value_construct_n` appends
`new_size - size_` value-constructed elements (value `dflt`); finally
`size_ = new_size`. -/
def Vec.resize (v : Vec α) (n : Nat) (dflt : α) : Vec α :=
  if n < v.size then
    ⟨v.data.take n, v.cap⟩
  else
    ⟨(v.reserve n).data ++ List.replicate (n - v.size) dflt, (v.reserve n).cap⟩

/-- `Vector::EmplaceBack` success path (lines 221-248): at full capacity the
live values move to a buffer of `grownCapacity` slots with the new element
constructed at index `size_`; otherwise the new element is constructed in the
spare slot; `++size_`. -/
def Vec.emplaceBack (v : Vec α) (a : α) : Vec α :=
  if v.size = v.cap then
    ⟨v.data ++ [a], grownCapacity v.size v.cap⟩
  else
    ⟨v.data ++ [a], v.cap⟩

/-- `Vector::PopBack` (lines 214-219): destroys the last live element and
decrements `size_`. -/
def Vec.popBack (v : Vec α) : Vec α :=
  ⟨v.data.dropLast, v.cap⟩

/-- `Vector::Emplace(pos, ...)` success path (lines 250-307) at index
`count = pos - begin()`.  With spare capacity the last element is
move-constructed into slot `size_`, `[count, size_ - 1)` shifts right one slot,
and the new value lands in slot `count`; at full capacity the old values are
copied/moved around a new element constructed at index `count` of a
`grownCapacity`-slot buffer.  In both cases the live values become
`data[0, count) ++ [a] ++ data[count, size_)`.  `Vector::Insert` (lines
317-320) forwards to this. -/
def Vec.emplace (v : Vec α) (count : Nat) (a : α) : Vec α :=
  if v.size < v.cap then
    ⟨v.data.take count ++ [a] ++ v.data.drop count, v.cap⟩
  else
    ⟨v.data.take count ++ [a] ++ v.data.drop count, grownCapacity v.size v.cap⟩

/-- `Vector::Erase(pos)` (lines 309-315) at index `count = pos - begin()`:
`std::move` shifts the values of `[count + 1, size_)` one slot left, and
`PopBack` destroys the vacated last slot.  The live values become
`data[0, count) ++ data[count + 1, size_)`. -/
def Vec.erase (v : Vec α) (count : Nat) : Vec α :=
  ⟨v.data.take count ++ v.data.drop (count + 1), v.cap⟩

/-- The copy assignment `operator=(const Vector&)` (lines 154-166) together
with the `CopyAssign` helper (lines 143-152).  `isSelf` mirrors the
`this != &other` pointer check: self-assignment is `isSelf = true` with
`src = dst`.  The second component counts the element-level operations
performed (copy constructions, copy assignments and destructor calls):
with `this == &other` the guarded body is skipped and `size_ = other.size_`
rewrites `size_` with its own value, so the count is 0; when the source is
longer than the capacity, a copy `copy_other(other)` is built
(`src.size` copy constructions) and swapped in, and the old elements die with
`copy_other` (`dst.size` destructor calls); otherwise `CopyAssign` copy-assigns
the common prefix and then destroys the excess tail or copy-constructs the
missing suffix. -/
def copyAssignOp (dst src : Vec α) (isSelf : Bool) : Vec α × Nat :=
  if isSelf then
    (dst, 0)
  else if dst.cap < src.size then
    (⟨src.data, src.size⟩, src.size + dst.size)
  else
    (⟨src.data, dst.cap⟩,
      min dst.size src.size +
        (if src.size ≤ dst.size then dst.size - src.size else src.size - dst.size))

/-! ## Move-vs-copy dispatch during buffer transfer -/

/-- The compile-time element-type facts the transfer dispatch consults:
`std::is_nothrow_move_constructible_v<T>` and `std::is_copy_constructible_v<T>`. -/
structure ElemTraits where
  isNothrowMoveConstructible : Bool
  isCopyConstructible : Bool
deriving DecidableEq

/-- The branch condition of `Vector::Reserve` (line 189):
`if constexpr (std::is_nothrow_move_constructible_v<T> || !std::is_copy_constructible_v<T>)`
selects `uninitialized_move_n`; the `else` uses `uninitialized_copy_n`. -/
def reserveUsesMove (t : ElemTraits) : Bool :=
  t.isNothrowMoveConstructible || !t.isCopyConstructible

/-- The identical branch condition of the `EmplaceBack` growth path (line 226). -/
def emplaceBackUsesMove (t : ElemTraits) : Bool :=
  t.isNothrowMoveConstructible || !t.isCopyConstructible

/-- The identical branch condition of the `Emplace` growth path (line 287). -/
def emplaceUsesMove (t : ElemTraits) : Bool :=
  t.isNothrowMoveConstructible || !t.isCopyConstructible

/-! ## Reachable (size_, capacity) pairs

`Reach s c` holds when some sequence of operations can leave a vector with
`size_ = s` and `Capacity() = c`.  One constructor per operation outcome,
traced from vector.h; exceptional exits are included.  Most exceptional exits
leave `size_` and the capacity exactly as they were (Reserve, the EmplaceBack
paths, the Emplace growth path, copy assignment, the sized and copy
constructors — a throwing constructor produces no object at all) and so need
no constructor of their own; the two that do change state are `resizeGrowFail`
(Reserve inside Resize succeeded, value-construction of a new element then
threw: capacity grew, `size_` did not) and the swallowed-exception path of the
interior `Emplace` (lines 269-274), which returns normally with `size_`
incremented and is therefore covered by `emplaceSpare`. -/
inductive Reach : Nat → Nat → Prop where
  /-- `Vector() = default` (line 88). -/
  | defaultCtor : Reach 0 0
  /-- `Vector(size_t size)` (lines 90-94): buffer of `size`, all value-constructed. -/
  | sizedCtor (n : Nat) : Reach n n
  /-- `Vector(const Vector&)` (lines 96-100): buffer of `other.size_`. -/
  | copyCtor {s c : Nat} : Reach s c → Reach s s
  /-- `Vector(Vector&&)` (lines 102-105), the new object: gets the source's state. -/
  | moveCtorDst {s c : Nat} : Reach s c → Reach s c
  /-- `Vector(Vector&&)`, the source afterwards: default state. -/
  | moveCtorSrc {s c : Nat} : Reach s c → Reach 0 0
  /-- `Reserve(n)` (lines 184-196): no-op unless `n > Capacity()`. -/
  | reserveOp {s c : Nat} (n : Nat) : Reach s c → Reach s (if n ≤ c then c else n)
  /-- `Resize(n)` with `n < size_` (lines 199-201). -/
  | resizeShrink {s c : Nat} (n : Nat) : n < s → Reach s c → Reach n c
  /-- `Resize(n)` with `size_ ≤ n` (lines 202-206), success. -/
  | resizeGrow {s c : Nat} (n : Nat) : s ≤ n → Reach s c → Reach n (if n ≤ c then c else n)
  /-- `Resize(n)` with `size_ ≤ n` where value-construction throws after the
  `Reserve` succeeded: `size_ = new_size` is never reached. -/
  | resizeGrowFail {s c : Nat} (n : Nat) : s ≤ n → Reach s c → Reach s (if n ≤ c then c else n)
  /-- `EmplaceBack` with spare capacity (lines 241-245). -/
  | pushSpare {s c : Nat} : s < c → Reach s c → Reach (s + 1) c
  /-- `EmplaceBack` at `size_ == Capacity()` (lines 223-240), success. -/
  | pushGrow {s c : Nat} : s = c → Reach s c → Reach (s + 1) (grownCapacity s c)
  /-- `PopBack` (lines 214-219); requires a live element. -/
  | popBackOp {s c : Nat} : 0 < s → Reach s c → Reach (s - 1) c
  /-- `Emplace` with `size_ < Capacity()` (lines 254-276) — including the
  swallowed-exception exit of lines 269-274, which also returns with `size_`
  incremented and the capacity unchanged. -/
  | emplaceSpare {s c : Nat} : s < c → Reach s c → Reach (s + 1) c
  /-- `Emplace` in the `else` branch, `¬(size_ < Capacity())` (lines 277-306). -/
  | emplaceGrow {s c : Nat} : ¬s < c → Reach s c → Reach (s + 1) (grownCapacity s c)
  /-- `Erase` (lines 309-315); requires a live element. -/
  | eraseOp {s c : Nat} : 0 < s → Reach s c → Reach (s - 1) c
  /-- `Swap` (lines 322-325) and `operator=(Vector&&)` (lines 168-173): each
  side ends with the other's reachable state. -/
  | swapGets {s c s' c' : Nat} : Reach s c → Reach s' c' → Reach s' c'
  /-- `operator=(const Vector&)` (lines 154-166), the target: copy-and-swap
  when `other.size_ > Capacity()`, in-place `CopyAssign` otherwise. -/
  | copyAssignTarget {s c s' c' : Nat} :
      Reach s c → Reach s' c' → Reach s' (if c < s' then s' else c)

/-! ## Helper lemmas -/

theorem uninitCopyN_fail (src dst : List (Option α)) (srcStart n dstStart k : Nat)
    (h : k < n) : uninitCopyN src srcStart n dst dstStart (some k) = .error dst := by
  simp [uninitCopyN, h]

theorem uninitCopyN_ok (src dst : List (Option α)) (srcStart n dstStart k : Nat)
    (h : ¬ k < n) :
    uninitCopyN src srcStart n dst dstStart (some k)
      = .ok (copyRange src srcStart dst dstStart n) := by
  simp [uninitCopyN, h]

theorem uninitCopyN2_fail (src dst : List (Option α)) (count size k : Nat)
    (hk : k < size) (hcount : count ≤ size) :
    ∃ d, uninitCopyN2 src count size dst (some k) = .error d := by
  by_cases h : k < count
  · exact ⟨dst, by simp [uninitCopyN2, uninitCopyN_fail _ _ _ _ _ _ h]⟩
  · refine ⟨copyRange src 0 dst 0 count, ?_⟩
    unfold uninitCopyN2
    rw [uninitCopyN_ok _ _ _ _ _ _ h]
    show uninitCopyN src count (size - count) (copyRange src 0 dst 0 count)
        (count + 1) (some (k - count)) = _
    exact uninitCopyN_fail _ _ _ _ _ _ (by omega)

/-! ## Claim theorems -/

/-- C1: for an element type whose copy constructor can throw, if the copy of
the `k`-th element (`k < size_`) throws while the live elements are being
transferred to the freshly allocated larger buffer — in `Reserve`, in a
capacity-growing `EmplaceBack`/`PushBack`, or in a capacity-growing
`Emplace`/`Insert` — then the exception propagates and the vector the caller
observes afterwards is exactly the state before the call: same buffer (hence
same capacity and same element values) and same `size_`. -/
theorem C1_strong_growth_safety {α : Type} (v : VecState α) (a : α)
    (ncap k count : Nat) (hncap : v.cap < ncap) (hk : k < v.size)
    (hcount : count ≤ v.size) :
    exnState (reserveCopying v ncap (some k)) = some v ∧
    exnState (emplaceBackGrowCopying v a (some k)) = some v ∧
    exnState (emplaceGrowCopying v count a false (some k)) = some v := by
  refine ⟨?_, ?_, ?_⟩
  · simp only [reserveCopying]
    rw [if_neg (by omega), uninitCopyN_fail _ _ _ _ _ _ hk]
    rfl
  · simp only [emplaceBackGrowCopying]
    rw [uninitCopyN_fail _ _ _ _ _ _ hk]
    rfl
  · obtain ⟨d, hd⟩ := uninitCopyN2_fail v.buf
      (constructAt (newBuffer α (grownCapacity v.size v.cap)) count a) count v.size k hk hcount
    simp only [emplaceGrowCopying]
    rw [if_neg (by simp), hd]
    rfl

/-- C1 witness: a concrete vector `[1, 2]` at full capacity 2, target capacity
5 for `Reserve`, new value 9, insertion index 1, with the copy of element 1
throwing; all three operations leave the state `⟨[some 1, some 2], 2⟩`. -/
theorem C1_witness :
    exnState (reserveCopying (⟨[some 1, some 2], 2⟩ : VecState Nat) 5 (some 1))
        = some ⟨[some 1, some 2], 2⟩ ∧
    exnState (emplaceBackGrowCopying (⟨[some 1, some 2], 2⟩ : VecState Nat) 9 (some 1))
        = some ⟨[some 1, some 2], 2⟩ ∧
    exnState (emplaceGrowCopying (⟨[some 1, some 2], 2⟩ : VecState Nat) 1 9 false (some 1))
        = some ⟨[some 1, some 2], 2⟩ :=
  C1_strong_growth_safety _ 9 5 1 1 (by decide) (by decide) (by decide)

/-- C2: during every buffer transfer (in `Reserve`, the `EmplaceBack` growth
path and the `Emplace` growth path) move-construction is selected if and only
if the element type is nothrow-move-constructible or not copy-constructible;
otherwise copy-construction is selected.  All three sites test the identical
condition. -/
theorem C2_move_dispatch (t : ElemTraits) :
    (reserveUsesMove t = true ↔
      t.isNothrowMoveConstructible = true ∨ t.isCopyConstructible = false) ∧
    (emplaceBackUsesMove t = true ↔
      t.isNothrowMoveConstructible = true ∨ t.isCopyConstructible = false) ∧
    (emplaceUsesMove t = true ↔
      t.isNothrowMoveConstructible = true ∨ t.isCopyConstructible = false) := by
  obtain ⟨m, c⟩ := t
  cases m <;> cases c <;> decide

/-- C3 counterexample: the claim says move-assignment leaves the source with
length 0, but `operator=(Vector&&)` is implemented as `Swap(other)`.  With
`a = [1]` (capacity 1) and `b = [2, 3]` (capacity 2), after `b = move(a)` the
source `a` holds `b`'s former two elements, so its length is 2, not 0. -/
theorem C3_counterexample :
    ¬ ((moveAssign (⟨[2, 3], 2⟩ : Vec Nat) ⟨[1], 1⟩).2.size = 0) := by decide

/-- C3 (amended): move-construction transfers the source's buffer and length
and leaves the source empty (the new object starts default-constructed and the
two are swapped); move-assignment between distinct vectors exchanges the two
states, so the target receives the source's buffer and length while the source
is left holding the target's former buffer and length — empty only when the
target was empty.  (Both are single `Swap` calls on `noexcept` paths; the O(1)
cost and no-throw property are visible in the code but outside this state
model.) -/
theorem C3_amended_move_semantics (a b : Vec α) :
    moveCtor a = (a, Vec.empty α) ∧ (moveCtor a).2.size = 0 ∧
    moveAssign b a = (a, b) :=
  ⟨rfl, rfl, rfl⟩

/-- C4: code-bug demonstration.  The claim (from the spec) says every element
operation failure is re-raised to the caller.  But in the interior
spare-capacity path of `Emplace` (vector.h lines 269-274), when
`data_[count] = std::move(temp)` throws, the catch block destroys slot `count`
and does not rethrow, so the call returns normally (`Except.ok`, not
`Except.error`): with the vector `[10, 20, 30]` in a capacity-4 buffer,
inserting 9 at index 0 with that assignment throwing yields a normal return
with `size_ = 4` while slot 0 holds no constructed element. -/
theorem C4_swallowed_assign_failure :
    emplaceSpareInterior (⟨[some 10, some 20, some 30, none], 3⟩ : VecState Nat) 0 9 true
      = .ok (⟨[none, some 10, some 20, some 30], 4⟩, 0) := rfl

/-- C5: code-bug demonstration.  The claim (from the spec) says no slot is
ever destroyed on which no constructor has completed.  But when the
construction of the new element into the freshly allocated buffer throws
during a capacity-growing `Emplace` (vector.h lines 279-285), the catch block
runs `std::destroy_n(new_data.GetAddress() + count, 1)` on exactly that
never-constructed slot: with the full vector `[1, 2]` and insertion index 1,
the call exits by exception having performed 1 destructor call on an
unconstructed slot (the final count in the `.error` payload). -/
theorem C5_destroy_never_constructed :
    emplaceGrowCopying (⟨[some 1, some 2], 2⟩ : VecState Nat) 1 9 true none
      = .error (⟨[some 1, some 2], 2⟩, 1) := rfl

/-- C6: when `size_` equals the capacity, a growth-triggering
`EmplaceBack`/`PushBack` or `Emplace`/`Insert` allocates its new buffer with
capacity `max(1, old capacity * 2)` — the code computes
`size_ == 0 ? 1 : Capacity() * 2`, which equals that under `size_ = Capacity()`. -/
theorem C6_growth_capacity (v : Vec α) (a : α) (i : Nat) (h : v.size = v.cap) :
    (v.emplaceBack a).cap = max 1 (v.cap * 2) ∧
    (v.emplace i a).cap = max 1 (v.cap * 2) := by
  have key : grownCapacity v.size v.cap = max 1 (v.cap * 2) := by
    unfold grownCapacity
    split <;> omega
  constructor
  · unfold Vec.emplaceBack
    rw [if_pos h]
    exact key
  · unfold Vec.emplace
    rw [if_neg (by omega)]
    exact key

/-- C6 witness: the full vector `[5, 6]` (size = capacity = 2); appending 7 or
inserting 7 at index 1 yields capacity `max 1 (2 * 2) = 4`. -/
theorem C6_witness :
    ((⟨[5, 6], 2⟩ : Vec Nat).emplaceBack 7).cap = max 1 ((⟨[5, 6], 2⟩ : Vec Nat).cap * 2) ∧
    ((⟨[5, 6], 2⟩ : Vec Nat).emplace 1 7).cap = max 1 ((⟨[5, 6], 2⟩ : Vec Nat).cap * 2) :=
  C6_growth_capacity _ 7 1 (by decide)

/-- C7: along every sequence of operations — construction, copy/move
assignment, `Reserve`, `Resize`, `PushBack`/`EmplaceBack`, `PopBack`,
`Emplace`/`Insert`, `Erase`, `Swap`, exceptional exits included — the invariant
`size_ ≤ Capacity()` holds after every call (`0 ≤ size_` holds outright, the
sizes being naturals). -/
theorem C7_size_le_capacity (s c : Nat) (h : Reach s c) : s ≤ c := by
  induction h with
  | defaultCtor => omega
  | sizedCtor n => omega
  | copyCtor _ _ => omega
  | moveCtorDst _ ih => exact ih
  | moveCtorSrc _ _ => omega
  | reserveOp n _ ih => split <;> omega
  | resizeShrink n hn _ ih => omega
  | resizeGrow n hn _ ih => split <;> omega
  | resizeGrowFail n hn _ ih => split <;> omega
  | pushSpare hlt _ _ => omega
  | pushGrow heq _ ih =>
    unfold grownCapacity
    split <;> omega
  | popBackOp hpos _ ih => omega
  | emplaceSpare hlt _ _ => omega
  | emplaceGrow hge _ ih =>
    unfold grownCapacity
    split <;> omega
  | eraseOp hpos _ ih => omega
  | swapGets _ _ _ ih2 => exact ih2
  | copyAssignTarget _ _ _ ih2 => split <;> omega

/-- C7 witness: the state reached from a default-constructed vector by a
growth-triggering `EmplaceBack` followed by `Reserve(2)` has `size_ = 1`,
capacity 2, and satisfies the invariant. -/
theorem C7_witness : (1 : Nat) ≤ 2 :=
  C7_size_le_capacity 1 2 (Reach.reserveOp 2 (Reach.pushGrow rfl Reach.defaultCtor))

/-- List form of insert-then-erase at the same index: erasing index `i` from
`take i l ++ [a] ++ drop i l` restores `l`, for any `i ≤ l.length`. -/
theorem insert_then_erase_list (l : List α) (a : α) (i : Nat) (h : i ≤ l.length) :
    (l.take i ++ [a] ++ l.drop i).take i ++ (l.take i ++ [a] ++ l.drop i).drop (i + 1)
      = l := by
  have h1 : (l.take i).length = i := by
    rw [List.length_take]
    omega
  have t1 : (l.take i ++ [a] ++ l.drop i).take i = l.take i := by
    rw [List.append_assoc]
    exact List.take_left' h1
  have t2 : (l.take i ++ [a] ++ l.drop i).drop (i + 1) = l.drop i := by
    have h2 : (l.take i ++ [a]).length = i + 1 := by
      rw [List.length_append, h1]
      rfl
    exact List.drop_left' h2
  rw [t1, t2, List.take_append_drop]

/-- C8: for any valid index `i ≤ size_` and any value, inserting the value at
index `i` (`Insert`/`Emplace`) and then erasing index `i` (`Erase`) restores
the original sequence of element values, on both the spare-capacity and the
reallocating insert paths. -/
theorem C8_insert_erase (v : Vec α) (i : Nat) (a : α) (h : i ≤ v.size) :
    ((v.emplace i a).erase i).data = v.data := by
  have hd : (v.emplace i a).data = v.data.take i ++ [a] ++ v.data.drop i := by
    unfold Vec.emplace
    split <;> rfl
  show ((v.emplace i a).data).take i ++ ((v.emplace i a).data).drop (i + 1) = v.data
  rw [hd]
  exact insert_then_erase_list v.data a i h

/-- C8 witness: the spec's example — inserting 9 at index 1 of `[1, 2, 3]`
gives `[1, 9, 2, 3]`, and erasing index 1 of that restores `[1, 2, 3]`. -/
theorem C8_witness :
    ((⟨[1, 2, 3], 3⟩ : Vec Nat).emplace 1 9).data = [1, 9, 2, 3] ∧
    (((⟨[1, 2, 3], 3⟩ : Vec Nat).emplace 1 9).erase 1).data = [1, 2, 3] :=
  ⟨by decide, C8_insert_erase ⟨[1, 2, 3], 3⟩ 1 9 (by decide)⟩

/-- C9: `Resize(n)` with `n` above the current length appends `n - size_`
value-constructed elements (value `d`) after the unchanged existing elements,
and with `n` below the current length keeps exactly the first `n` elements;
in both cases the length afterwards is `n`. -/
theorem C9_resize_spec (v : Vec α) (n : Nat) (d : α) :
    (v.size < n →
      (v.resize n d).data = v.data ++ List.replicate (n - v.size) d ∧
      (v.resize n d).size = n) ∧
    (n < v.size →
      (v.resize n d).data = v.data.take n ∧ (v.resize n d).size = n) := by
  have hlen : v.data.length = v.size := rfl
  constructor
  · intro hlt
    have hr : (v.reserve n).data = v.data := by
      unfold Vec.reserve
      split <;> rfl
    have hdata : (v.resize n d).data = v.data ++ List.replicate (n - v.size) d := by
      unfold Vec.resize
      rw [if_neg (by omega)]
      show (v.reserve n).data ++ List.replicate (n - v.size) d = _
      rw [hr]
    refine ⟨hdata, ?_⟩
    show (v.resize n d).data.length = n
    rw [hdata, List.length_append, List.length_replicate]
    omega
  · intro hlt
    have hdata : (v.resize n d).data = v.data.take n := by
      unfold Vec.resize
      rw [if_pos hlt]
    refine ⟨hdata, ?_⟩
    show (v.resize n d).data.length = n
    rw [hdata, List.length_take]
    omega

/-- C9 witness: the spec's example — `resize([1,2,3], 5)` with default value 0
yields `[1, 2, 3, 0, 0]` of length 5. -/
theorem C9_witness :
    ((⟨[1, 2, 3], 3⟩ : Vec Nat).resize 5 0).data = [1, 2, 3, 0, 0] ∧
    ((⟨[1, 2, 3], 3⟩ : Vec Nat).resize 5 0).size = 5 :=
  (C9_resize_spec ⟨[1, 2, 3], 3⟩ 5 0).1 (by decide)

/-- C10: copy-assigning a vector to itself (`this == &other`, so the guarded
body of `operator=(const Vector&)` is skipped and `size_ = other.size_`
rewrites `size_` with itself) leaves the vector unchanged — same length,
capacity and element values — and performs zero element copy-constructions,
copy-assignments and destructor calls. -/
theorem C10_self_copy_assign (v : Vec α) : copyAssignOp v v true = (v, 0) := rfl

end AdvVec
